import Mathlib

/-!
Shallow embedding of the oclint driver (file `oclint-driver/main.cpp`): the
post-analysis result pipeline of a static-analysis command-line tool.
Pure logic (threshold gate, output-path derivation, variant selection,
startup sequencing, reporting loop) is translated directly from the C++
source; the effectful externals (dynamic plugin loading, the filesystem,
reporter `report` calls, the analysis engine) are represented by explicit
environment records so that the control flow of the driver over them is
the object of proof.
-/

/-- Modelled from the spec: the exit-status constants of `oclint/ExitCode.h`
are not under `src/`; the spec's process exit surface lists seven distinct
statuses (`Success`, `RuleNotFound`, `ReporterNotFound`, `CompilationErrors`,
`ViolationsExceedThreshold`, `ErrorWhileProcessing`, `ErrorWhileReporting`).
`SUCCESS` must be `0`: `main` tests `if (prepareStatus)` with C truthiness.
The remaining values are chosen distinct and nonzero. -/
def SUCCESS : Nat := 0

/-- Modelled from the spec: see `SUCCESS`. -/
def RULE_NOT_FOUND : Nat := 1

/-- Modelled from the spec: see `SUCCESS`. -/
def REPORTER_NOT_FOUND : Nat := 2

/-- Modelled from the spec: see `SUCCESS`. -/
def ERROR_WHILE_PROCESSING : Nat := 3

/-- Modelled from the spec: see `SUCCESS`. -/
def ERROR_WHILE_REPORTING : Nat := 4

/-- Modelled from the spec: see `SUCCESS`. -/
def VIOLATIONS_EXCEED_THRESHOLD : Nat := 5

/-- Modelled from the spec: see `SUCCESS`. -/
def COMPILATION_ERRORS : Nat := 6

/-- Configuration surface the driver reads through `oclint::option::*`:
rule-plugin paths, reporter names, the three priority ceilings
(`maxP1`/`maxP2`/`maxP3`), the optional output-path template
(`hasOutputPath`/`outputPath`), and the `allowDuplicatedViolations` flag. -/
structure Options where
  rulesPath : List String
  reporterNames : List String
  maxP1 : Nat
  maxP2 : Nat
  maxP3 : Nat
  hasOutputPath : Bool
  outputPath : String
  allowDuplicatedViolations : Bool

/-- Interface of `oclint::Results` that `main.cpp` consumes: a count of
violations at a given priority and whether a hard analysis error was
recorded.  `main.cpp` only ever calls these two members on the view. -/
structure ResultsView where
  numberOfViolationsWithPriority : Nat → Nat
  hasErrors : Bool

/-- Function `numberOfViolationsExceedThreshold` from `main.cpp`: some
priority has a count strictly greater than its ceiling. -/
def numberOfViolationsExceedThreshold (opts : Options) (results : ResultsView) : Bool :=
  decide (results.numberOfViolationsWithPriority 1 > opts.maxP1) ||
  decide (results.numberOfViolationsWithPriority 2 > opts.maxP2) ||
  decide (results.numberOfViolationsWithPriority 3 > opts.maxP3)

/-- Function `printErrorLine` from `main.cpp`: the text it writes to
`cerr`. -/
def printErrorLine (errorMessage : String) : String :=
  "\n" ++ "oclint: error: " ++ errorMessage ++ "\n"

/-- Function `printViolationsExceedThresholdError` from `main.cpp`: the text
it writes to `cerr` — the error line followed by count and ceiling for each
of the three priorities. -/
def printViolationsExceedThresholdError (opts : Options) (results : ResultsView) : String :=
  printErrorLine "violations exceed threshold" ++
  ("P1=" ++ toString (results.numberOfViolationsWithPriority 1) ++
    "[" ++ toString opts.maxP1 ++ "] ") ++
  ("P2=" ++ toString (results.numberOfViolationsWithPriority 2) ++
    "[" ++ toString opts.maxP2 ++ "] ") ++
  ("P3=" ++ toString (results.numberOfViolationsWithPriority 3) ++
    "[" ++ toString opts.maxP3 ++ "] " ++ "\n")

/-- Function `handleExit` from `main.cpp`, paired with the text it writes to
the standard error channel: hard errors force `COMPILATION_ERRORS`;
otherwise a breached ceiling prints the three-priority diagnostic and
yields `VIOLATIONS_EXCEED_THRESHOLD`; otherwise `SUCCESS`. -/
def handleExit (opts : Options) (results : ResultsView) : Nat × String :=
  if results.hasErrors then
    (COMPILATION_ERRORS, "")
  else if numberOfViolationsExceedThreshold opts results then
    (VIOLATIONS_EXCEED_THRESHOLD, printViolationsExceedThresholdError opts results)
  else
    (SUCCESS, "")

/-- Index of the last occurrence of a character in a character list. -/
def lastIdxOf (c : Char) : List Char → Option Nat
  | [] => none
  | x :: xs =>
    match lastIdxOf c xs with
    | some i => some (i + 1)
    | none => if x = c then some 0 else none

/-- Models `llvm::sys::path::parent_path` (POSIX style) as used on the
output-path template: everything before the last `/`, or the empty string
when the path has no separator.  (The extra LLVM handling of trailing
separators and filesystem roots does not arise for the template shapes the
driver comment documents, `dir1/dir2/name.*`.) -/
def parent_path (s : String) : String :=
  match lastIdxOf '/' s.data with
  | none => ""
  | some i => String.mk (s.data.take i)

/-- Models `llvm::sys::path::filename` (POSIX style): the component after
the last `/`, or the whole string when there is no separator. -/
def filename (s : String) : String :=
  match lastIdxOf '/' s.data with
  | none => s
  | some i => String.mk (s.data.drop (i + 1))

/-- Models `llvm::sys::path::stem` (POSIX style): the filename with the
extension after its last `.` stripped; the names `.` and `..` and
extension-less names are returned whole. -/
def stem (s : String) : String :=
  let f := filename s
  if f = "." || f = ".." then f
  else
    match lastIdxOf '.' f.data with
    | none => f
    | some i => String.mk (f.data.take i)

/-- Output path computed inside `outStream` in `main.cpp`:
`parent_path(output) + "/" + stem(output) + "." + reporter->name()`. -/
def derivedOutputPath (output : String) (reporterName : String) : String :=
  parent_path output ++ "/" ++ stem output ++ "." ++ reporterName

/-- A resolved output stream: the shared standard output, or a file stream
opened at a concrete path. -/
inductive OutTarget where
  | stdout
  | file (path : String)
deriving DecidableEq

/-- Filesystem as the driver observes it: whether opening a path for
writing succeeds (`ofstream::is_open`). -/
structure FS where
  canOpen : String → Bool

/-- An active reporter as `main.cpp` uses it: its format name, and whether
its `report` call raises (the report bodies are external collaborators). -/
structure Reporter where
  name : String
  reportFails : Bool
deriving DecidableEq

/-- Function `outStream` from `main.cpp`: without an output-path template
every reporter gets the shared standard output; with one, the derived path
is opened and a failure to open raises `GenericException` with the path in
the message. -/
def outStream (opts : Options) (fs : FS) (reporter : Reporter) : Except String OutTarget :=
  if !opts.hasOutputPath then
    Except.ok OutTarget.stdout
  else
    let output := derivedOutputPath opts.outputPath reporter.name
    if fs.canOpen output then Except.ok (OutTarget.file output)
    else Except.error ("cannot open report output file " ++ output)

/-- Function `disposeOutStream` from `main.cpp`, as the decision whether
the stream gets closed: it closes the (then file-backed) stream exactly
when an output-path template is configured. -/
def disposeOutStream (opts : Options) (_out : OutTarget) : Bool :=
  opts.hasOutputPath

/-- Target that `outStream` yields for a reporter when it does not raise. -/
def resolvedTarget (opts : Options) (r : Reporter) : OutTarget :=
  if opts.hasOutputPath then OutTarget.file (derivedOutputPath opts.outputPath r.name)
  else OutTarget.stdout

/-- A reporter completes its loop iteration: its stream resolves and its
`report` call returns normally. -/
def reporterOk (opts : Options) (fs : FS) (r : Reporter) : Bool :=
  match outStream opts fs r with
  | Except.error _ => false
  | Except.ok _ => !r.reportFails

/-- Reporting loop of `main` together with its surrounding `catch`: each
reporter in order resolves its stream, reports, and has its stream
disposed; the first raise (stream resolution or `report`) ends the loop
with `ERROR_WHILE_REPORTING`.  The first component records, in order, the
names and targets of the completed reporters (their kept output); the
second component is `some code` when the loop was aborted. -/
def runReporters (opts : Options) (fs : FS) : List Reporter → List (String × OutTarget) × Option Nat
  | [] => ([], none)
  | r :: rest =>
    match outStream opts fs r with
    | Except.error _ => ([], some ERROR_WHILE_REPORTING)
    | Except.ok out =>
      if r.reportFails then ([], some ERROR_WHILE_REPORTING)
      else
        let next := runReporters opts fs rest
        ((r.name, out) :: next.1, next.2)

/-- One discovered issue, per the data model of the spec (rule identifier,
priority, source location, message). -/
structure Violation where
  ruleId : String
  priority : Nat
  path : String
  startLine : Nat
  startColumn : Nat
  endLine : Nat
  endColumn : Nat
  message : String
deriving DecidableEq

/-- Process-wide `ResultCollector`: the insertion-ordered violation log
plus the hard-analysis-error flag. -/
structure ResultCollector where
  violations : List Violation
  hasErrors : Bool
deriving DecidableEq

/-- Two `oclint::Results` variants that `main.cpp` constructs, each over
the backing collector: `RawResults` and `UniqueResults`. -/
inductive Results where
  | rawResults (collector : ResultCollector)
  | uniqueResults (collector : ResultCollector)
deriving DecidableEq

/-- Function `getResults` from `main.cpp`: `allowDuplicatedViolations`
selects the Raw view, otherwise the Unique view, both over the same
collector. -/
def getResults (opts : Options) (collector : ResultCollector) : Results :=
  if opts.allowDuplicatedViolations then
    Results.rawResults collector
  else
    Results.uniqueResults collector

/-- Whether the constructed view is the Raw variant. -/
def Results.isRaw : Results → Bool
  | Results.rawResults _ => true
  | Results.uniqueResults _ => false

/-- Whether the constructed view is the Unique variant. -/
def Results.isUnique : Results → Bool
  | Results.rawResults _ => false
  | Results.uniqueResults _ => true

/-- Backing collector of either variant. -/
def Results.backing : Results → ResultCollector
  | Results.rawResults c => c
  | Results.uniqueResults c => c

/-- Modelled from the spec: the deduplication identity key of a violation —
(rule identifier, file path, start line, start column, message text). -/
def Violation.key (v : Violation) : String × String × Nat × Nat × String :=
  (v.ruleId, v.path, v.startLine, v.startColumn, v.message)

/-- Modelled from the spec: the single-pass first-seen-wins deduplication
of the Unique view over the log, keyed by the identity tuple (the
`UniqueResults` implementation of oclint-core is not under `src/`). -/
def dedupKeep (seen : List (String × String × Nat × Nat × String)) :
    List Violation → List Violation
  | [] => []
  | v :: vs =>
    if v.key ∈ seen then dedupKeep seen vs
    else v :: dedupKeep (v.key :: seen) vs

/-- Modelled from the spec: the violations a view exposes — the Raw variant
is the log verbatim, the Unique variant its deduplicated projection (the
`RawResults` and `UniqueResults` implementations are not under `src/`). -/
def Results.exposed : Results → List Violation
  | Results.rawResults c => c.violations
  | Results.uniqueResults c => dedupKeep [] c.violations

/-- Modelled from the spec: the member view a `Results` object offers —
per-priority counts over the exposed violations and the hard-error flag of
the collector. -/
def Results.view (r : Results) : ResultsView :=
  { numberOfViolationsWithPriority := fun p =>
      (r.exposed.filter (fun v => v.priority = p)).length
    hasErrors := r.backing.hasErrors }

/-- Modelled from the spec: the behavior of `dynamicLoadRules` (`rules.h`,
not under `src/`) on one path — either a named load failure, or success
registering some number of rules into the Rule Registry. -/
structure RulesLoader where
  loadError : String → Option String
  rulesRegistered : String → Nat

/-- Function `consumeArgRulesPath` from `main.cpp`: load each configured
rule path in order; the first load failure propagates (as the thrown
exception). -/
def consumeArgRulesPath (loader : RulesLoader) : List String → Option String
  | [] => none
  | p :: rest =>
    match loader.loadError p with
    | some e => some e
    | none => consumeArgRulesPath loader rest

/-- Modelled from the spec: `RuleSet::numberOfRules()` after a clean pass
over the configured paths — the total registered by all of them (the
registry of oclint-core is not under `src/`). -/
def totalRulesRegistered (loader : RulesLoader) (paths : List String) : Nat :=
  (paths.map loader.rulesRegistered).sum

/-- Modelled from the spec: `loadReporter` (`reporters.h`, not under
`src/`) — each configured reporter name is looked up in the Reporter
Registry and an unresolved name raises, naming the missing reporter. -/
def loadReporter (registry : List String) : List String → Option String
  | [] => none
  | n :: rest =>
    if registry.contains n then loadReporter registry rest
    else some ("cannot find reporter " ++ n)

/-- Function `prepare` from `main.cpp`: a rule-path load failure yields
`RULE_NOT_FOUND`; an empty Rule Registry after loading yields
`RULE_NOT_FOUND`; a reporter-loading failure yields `REPORTER_NOT_FOUND`;
otherwise `SUCCESS`. -/
def prepare (loader : RulesLoader) (registry : List String) (opts : Options) : Nat :=
  match consumeArgRulesPath loader opts.rulesPath with
  | some _ => RULE_NOT_FOUND
  | none =>
    if totalRulesRegistered loader opts.rulesPath ≤ 0 then RULE_NOT_FOUND
    else
      match loadReporter registry opts.reporterNames with
      | some _ => REPORTER_NOT_FOUND
      | none => SUCCESS

/-- Inputs of one driver run past option parsing: configuration, the
external loaders and registries, whether `driver.run` raises, the collector
the analysis phase produced, the filesystem, and the active reporters. -/
structure Run where
  opts : Options
  loader : RulesLoader
  reporterRegistry : List String
  driverError : Option String
  collector : ResultCollector
  fs : FS
  activeReporters : List Reporter

/-- Driver `main` past option parsing, returning the exit status and
whether the analysis phase (`driver.run`) was invoked: a nonzero `prepare`
status returns immediately; a raising `driver.run` yields
`ERROR_WHILE_PROCESSING`; a raise in the reporting loop yields its code;
otherwise `handleExit` on the view built by `getResults` decides. -/
def mainRun (run : Run) : Nat × Bool :=
  let prepareStatus := prepare run.loader run.reporterRegistry run.opts
  if prepareStatus ≠ 0 then (prepareStatus, false)
  else
    match run.driverError with
    | some _ => (ERROR_WHILE_PROCESSING, true)
    | none =>
      let results := getResults run.opts run.collector
      match (runReporters run.opts run.fs run.activeReporters).2 with
      | some code => (code, true)
      | none => ((handleExit run.opts results.view).1, true)

/-- A string occurs contiguously inside another. -/
def containsSeg (s : String) (seg : String) : Prop :=
  ∃ pre post, s = pre ++ seg ++ post

/-- Fixture: a view that recorded a hard analysis error. -/
def viewErr : ResultsView := ⟨fun _ => 0, true⟩

/-- Fixture: counts p1=5, p2=0, p3=0, no hard error. -/
def viewFive : ResultsView := ⟨fun p => if p = 1 then 5 else 0, false⟩

/-- Fixture: ceilings max1=4, max2=0, max3=0. -/
def optsMax4 : Options := ⟨[], [], 4, 0, 0, false, "", false⟩

/-- Fixture: ceilings max1=5, max2=0, max3=0. -/
def optsMax5 : Options := ⟨[], [], 5, 0, 0, false, "", false⟩

/-- Fixture: no output-path template configured. -/
def optsNoOut : Options := ⟨[], [], 0, 0, 0, false, "", false⟩

/-- Fixture: output-path template `out/report.txt`. -/
def optsOut : Options := ⟨[], [], 0, 0, 0, true, "out/report.txt", false⟩

/-- Fixture: a filesystem on which every open succeeds. -/
def fsAll : FS := ⟨fun _ => true⟩

/-- Fixture: a filesystem on which only `out/report.xml` cannot be
opened. -/
def fsNoXml : FS := ⟨fun p => p != "out/report.xml"⟩

/-- Fixture: a well-behaved text reporter. -/
def repText : Reporter := ⟨"text", false⟩

/-- Fixture: a well-behaved json reporter. -/
def repJson : Reporter := ⟨"json", false⟩

/-- Fixture: an xml reporter (its target path is unwritable on
`fsNoXml`). -/
def repXml : Reporter := ⟨"xml", false⟩

/-- Fixture: a loader that succeeds on every path and registers nothing. -/
def loaderEmpty : RulesLoader := ⟨fun _ => none, fun _ => 0⟩

/-- Fixture: a loader that registers 25 rules per path. -/
def loaderOne : RulesLoader := ⟨fun _ => none, fun _ => 25⟩

/-- Fixture: a loader that fails on every path. -/
def loaderFailing : RulesLoader := ⟨fun _ => some "cannot open dynamic library", fun _ => 0⟩

/-- Fixture: a run whose rule loading succeeds but registers zero rules. -/
def runEmptyRules : Run :=
  ⟨⟨[], ["text"], 0, 0, 0, false, "", false⟩, loaderEmpty, ["text"], none,
    ⟨[], false⟩, ⟨fun _ => true⟩, []⟩

/-- Fixture: a run requesting the unregistered reporter `fancyhtml`. -/
def runBadReporter : Run :=
  ⟨⟨["r.dylib"], ["fancyhtml"], 0, 0, 0, false, "", false⟩, loaderOne, ["text", "html"], none,
    ⟨[], false⟩, ⟨fun _ => true⟩, []⟩

/-- Fixture: a single configured rule path. -/
def optsOnePath : Options := ⟨["a.dylib"], [], 0, 0, 0, false, "", false⟩

/-- Fixture: no configured rule paths. -/
def optsNoPath : Options := ⟨[], [], 0, 0, 0, false, "", false⟩

/-- Helper: the boolean threshold test holds exactly when some priority
count strictly exceeds its ceiling. -/
theorem exceed_iff (opts : Options) (results : ResultsView) :
    numberOfViolationsExceedThreshold opts results = true ↔
      (results.numberOfViolationsWithPriority 1 > opts.maxP1 ∨
       results.numberOfViolationsWithPriority 2 > opts.maxP2 ∨
       results.numberOfViolationsWithPriority 3 > opts.maxP3) := by
  simp [numberOfViolationsExceedThreshold, or_assoc]

/-- Claim C1: for every final Results view and threshold configuration, if
the view recorded any hard analysis error then `handleExit` returns
`COMPILATION_ERRORS`, regardless of the per-priority violation counts and
ceilings; the violation-count branch is never consulted. -/
theorem handleExit_compilation_errors (opts : Options) (results : ResultsView)
    (h : results.hasErrors = true) :
    (handleExit opts results).1 = COMPILATION_ERRORS := by
  simp [handleExit, h]

/-- Witness for C1 at a concrete view with a recorded hard error. -/
theorem handleExit_compilation_errors_witness :
    viewErr.hasErrors = true ∧ (handleExit optsMax4 viewErr).1 = COMPILATION_ERRORS :=
  ⟨rfl, handleExit_compilation_errors optsMax4 viewErr rfl⟩

/-- Claim C2: with no hard errors, `handleExit` returns
`VIOLATIONS_EXCEED_THRESHOLD` if and only if some priority count is
strictly greater than its ceiling, and returns `SUCCESS` if and only if no
priority count is; in particular a count exactly equal to its ceiling is
not a breach. -/
theorem handleExit_threshold_iff (opts : Options) (results : ResultsView)
    (h : results.hasErrors = false) :
    ((handleExit opts results).1 = VIOLATIONS_EXCEED_THRESHOLD ↔
      (results.numberOfViolationsWithPriority 1 > opts.maxP1 ∨
       results.numberOfViolationsWithPriority 2 > opts.maxP2 ∨
       results.numberOfViolationsWithPriority 3 > opts.maxP3)) ∧
    ((handleExit opts results).1 = SUCCESS ↔
      ¬(results.numberOfViolationsWithPriority 1 > opts.maxP1 ∨
        results.numberOfViolationsWithPriority 2 > opts.maxP2 ∨
        results.numberOfViolationsWithPriority 3 > opts.maxP3)) := by
  by_cases hp : (results.numberOfViolationsWithPriority 1 > opts.maxP1 ∨
      results.numberOfViolationsWithPriority 2 > opts.maxP2 ∨
      results.numberOfViolationsWithPriority 3 > opts.maxP3)
  · have hx : numberOfViolationsExceedThreshold opts results = true :=
      (exceed_iff opts results).mpr hp
    simp [handleExit, h, hx, hp, VIOLATIONS_EXCEED_THRESHOLD, SUCCESS]
  · have hx : numberOfViolationsExceedThreshold opts results = false := by
      cases hq : numberOfViolationsExceedThreshold opts results
      · rfl
      · exact absurd ((exceed_iff opts results).mp hq) hp
    simp [handleExit, h, hx, hp, VIOLATIONS_EXCEED_THRESHOLD, SUCCESS]

/-- Witness for C2 at the boundary example of the spec: counts p1=5, p2=0,
p3=0 with max1=4 breach the gate, while max1=5 (equality) passes it. -/
theorem handleExit_threshold_iff_witness :
    (handleExit optsMax4 viewFive).1 = VIOLATIONS_EXCEED_THRESHOLD ∧
    (handleExit optsMax5 viewFive).1 = SUCCESS :=
  ⟨((handleExit_threshold_iff optsMax4 viewFive rfl).1).mpr (Or.inl (by decide)),
   ((handleExit_threshold_iff optsMax5 viewFive rfl).2).mpr (by decide)⟩

/-- Counterexample to claim C3 as stated: the template `report` (no
directory, no extension) with format `xml` does not derive `report.xml`;
the code prepends the joining slash even for an empty parent directory. -/
theorem derivedOutputPath_bare_template_cex :
    derivedOutputPath "report" "xml" ≠ "report.xml" := by decide

/-- Claim C3 (amended): the derived output path is
`parent_path(template) + "/" + stem(template) + "." + format` for every
template and format, with `stem` stripping an existing extension; template
`out/report.txt` with format `json` derives `out/report.json`, and
template `report` with format `xml` derives `/report.xml` (the empty
parent directory still gets the joining slash prepended). -/
theorem derivedOutputPath_formula :
    (∀ tmpl fmt, derivedOutputPath tmpl fmt =
      parent_path tmpl ++ "/" ++ stem tmpl ++ "." ++ fmt) ∧
    derivedOutputPath "out/report.txt" "json" = "out/report.json" ∧
    derivedOutputPath "report" "xml" = "/report.xml" :=
  ⟨fun _ _ => rfl, by decide, by decide⟩

/-- Helper: a reporter whose loop iteration completes resolves to the
expected target and its `report` call returns. -/
theorem reporterOk_outStream (opts : Options) (fs : FS) (r : Reporter)
    (h : reporterOk opts fs r = true) :
    outStream opts fs r = Except.ok (resolvedTarget opts r) ∧ r.reportFails = false := by
  unfold reporterOk at h
  constructor
  · unfold outStream at h ⊢
    unfold resolvedTarget
    cases hp : opts.hasOutputPath
    · simp [hp]
    · simp only [hp, Bool.not_true, Bool.false_eq_true, if_false, if_true] at h ⊢
      cases hc : fs.canOpen (derivedOutputPath opts.outputPath r.name)
      · rw [hc] at h; simp at h
      · simp [hc]
  · unfold outStream at h
    cases hp : opts.hasOutputPath
    · simp [hp] at h; simpa using h
    · simp only [hp, Bool.not_true, Bool.false_eq_true, if_false, if_true] at h
      cases hc : fs.canOpen (derivedOutputPath opts.outputPath r.name)
      · rw [hc] at h; simp at h
      · rw [hc] at h; simpa using h

/-- Claim C4: if every reporter before some failing reporter completes and
that reporter fails (stream resolution or report), the reporting loop
stops there with `ERROR_WHILE_REPORTING`: the completed outputs before it
are kept, and no reporter after it is invoked (the result is independent
of the rest of the list). -/
theorem runReporters_abort (opts : Options) (fs : FS) (pre : List Reporter) (r : Reporter)
    (post : List Reporter)
    (hpre : ∀ x ∈ pre, reporterOk opts fs x = true)
    (hr : reporterOk opts fs r = false) :
    runReporters opts fs (pre ++ r :: post) =
      (pre.map (fun x => (x.name, resolvedTarget opts x)), some ERROR_WHILE_REPORTING) := by
  induction pre with
  | nil =>
    simp only [List.nil_append, List.map_nil]
    unfold reporterOk at hr
    cases ho : outStream opts fs r with
    | error e => simp [runReporters, ho]
    | ok t =>
      rw [ho] at hr
      have hf : r.reportFails = true := by simpa using hr
      simp [runReporters, ho, hf]
  | cons x xs ih =>
    have hx := reporterOk_outStream opts fs x (hpre x (by simp))
    have hxs : ∀ y ∈ xs, reporterOk opts fs y = true := fun y hy => hpre y (by simp [hy])
    simp only [List.cons_append, List.map_cons]
    rw [runReporters, hx.1]
    simp [hx.2, ih hxs]

/-- Witness for C4: a json reporter completes, the xml reporter cannot open
its derived path, the loop aborts with `ERROR_WHILE_REPORTING`, and the
completed json output is kept. -/
theorem runReporters_abort_witness :
    (∀ x ∈ [repJson], reporterOk optsOut fsNoXml x = true) ∧
    reporterOk optsOut fsNoXml repXml = false ∧
    runReporters optsOut fsNoXml ([repJson] ++ repXml :: []) =
      ([("json", OutTarget.file "out/report.json")], some ERROR_WHILE_REPORTING) :=
  ⟨by decide, by decide,
    (runReporters_abort optsOut fsNoXml [repJson] repXml [] (by decide) (by decide)).trans
      (by decide)⟩

/-- Helper: a clean load pass that registers zero rules makes `prepare`
fail with `RULE_NOT_FOUND`. -/
theorem prepare_zero_rules (loader : RulesLoader) (registry : List String) (opts : Options)
    (h1 : consumeArgRulesPath loader opts.rulesPath = none)
    (h2 : totalRulesRegistered loader opts.rulesPath = 0) :
    prepare loader registry opts = RULE_NOT_FOUND := by
  unfold prepare
  rw [h1]
  simp [h2]

/-- Claim C5: a rule-plugin path list whose loading completes without a
load error but registers zero rules in total (the empty list included)
makes the driver exit with `RULE_NOT_FOUND` and the analysis phase is
never invoked. -/
theorem mainRun_zero_rules (run : Run)
    (h1 : consumeArgRulesPath run.loader run.opts.rulesPath = none)
    (h2 : totalRulesRegistered run.loader run.opts.rulesPath = 0) :
    mainRun run = (RULE_NOT_FOUND, false) := by
  have hp := prepare_zero_rules run.loader run.reporterRegistry run.opts h1 h2
  simp [mainRun, hp, RULE_NOT_FOUND]

/-- Witness for C5 at a run with an empty rule-path list. -/
theorem mainRun_zero_rules_witness :
    consumeArgRulesPath runEmptyRules.loader runEmptyRules.opts.rulesPath = none ∧
    totalRulesRegistered runEmptyRules.loader runEmptyRules.opts.rulesPath = 0 ∧
    mainRun runEmptyRules = (RULE_NOT_FOUND, false) :=
  ⟨rfl, rfl, mainRun_zero_rules runEmptyRules rfl rfl⟩

/-- Helper: an unresolved requested reporter name makes `loadReporter`
raise. -/
theorem loadReporter_missing (registry : List String) (names : List String)
    (h : ∃ n ∈ names, registry.contains n = false) :
    ∃ e, loadReporter registry names = some e := by
  induction names with
  | nil => rcases h with ⟨n, hn, _⟩; cases hn
  | cons m rest ih =>
    by_cases hm : registry.contains m = true
    · rcases h with ⟨n, hn, hc⟩
      have hrest : ∃ n ∈ rest, registry.contains n = false := by
        rcases List.mem_cons.mp hn with h1 | h2
        · subst h1; rw [hm] at hc; cases hc
        · exact ⟨n, h2, hc⟩
      rcases ih hrest with ⟨e, he⟩
      refine ⟨e, ?_⟩
      show loadReporter registry (m :: rest) = some e
      unfold loadReporter
      rw [if_pos hm]
      exact he
    · refine ⟨"cannot find reporter " ++ m, ?_⟩
      show loadReporter registry (m :: rest) = some ("cannot find reporter " ++ m)
      unfold loadReporter
      rw [if_neg hm]

/-- Claim C6: if rule loading succeeds and registers rules but some
requested reporter name does not resolve in the Reporter Registry, the
driver exits with `REPORTER_NOT_FOUND` and the analysis phase is never
invoked (the check happens in `prepare`, before `driver.run`). -/
theorem mainRun_reporter_not_found (run : Run)
    (h1 : consumeArgRulesPath run.loader run.opts.rulesPath = none)
    (h2 : 0 < totalRulesRegistered run.loader run.opts.rulesPath)
    (h3 : ∃ n ∈ run.opts.reporterNames, run.reporterRegistry.contains n = false) :
    mainRun run = (REPORTER_NOT_FOUND, false) := by
  rcases loadReporter_missing run.reporterRegistry run.opts.reporterNames h3 with ⟨e, he⟩
  have hle : ¬ (totalRulesRegistered run.loader run.opts.rulesPath ≤ 0) := by omega
  have hp : prepare run.loader run.reporterRegistry run.opts = REPORTER_NOT_FOUND := by
    unfold prepare
    rw [h1]
    simp [hle, he]
  simp [mainRun, hp, REPORTER_NOT_FOUND]

/-- Witness for C6 at a run requesting the unregistered reporter
`fancyhtml`. -/
theorem mainRun_reporter_not_found_witness :
    consumeArgRulesPath runBadReporter.loader runBadReporter.opts.rulesPath = none ∧
    0 < totalRulesRegistered runBadReporter.loader runBadReporter.opts.rulesPath ∧
    ("fancyhtml" ∈ runBadReporter.opts.reporterNames ∧
      runBadReporter.reporterRegistry.contains "fancyhtml" = false) ∧
    mainRun runBadReporter = (REPORTER_NOT_FOUND, false) :=
  ⟨rfl, by decide, ⟨by decide, by decide⟩,
    mainRun_reporter_not_found runBadReporter rfl (by decide)
      ⟨"fancyhtml", by decide, by decide⟩⟩

/-- Helper: when the gate decides `VIOLATIONS_EXCEED_THRESHOLD`, the text
written to the standard error channel is exactly the three-priority
diagnostic. -/
theorem handleExit_snd_of_threshold (opts : Options) (results : ResultsView)
    (h : (handleExit opts results).1 = VIOLATIONS_EXCEED_THRESHOLD) :
    (handleExit opts results).2 = printViolationsExceedThresholdError opts results := by
  cases he : results.hasErrors
  · cases hx : numberOfViolationsExceedThreshold opts results
    · simp [handleExit, he, hx, SUCCESS, VIOLATIONS_EXCEED_THRESHOLD] at h
    · simp [handleExit, he, hx]
  · simp [handleExit, he, COMPILATION_ERRORS, VIOLATIONS_EXCEED_THRESHOLD] at h

/-- Claim C7: whenever the gate decides `VIOLATIONS_EXCEED_THRESHOLD`, the
diagnostic written to the standard error channel contains the actual count
together with the configured ceiling for each of the three priorities, not
only for the first breached one. -/
theorem handleExit_reports_all_priorities (opts : Options) (results : ResultsView)
    (h : (handleExit opts results).1 = VIOLATIONS_EXCEED_THRESHOLD) :
    containsSeg (handleExit opts results).2
      ("P1=" ++ toString (results.numberOfViolationsWithPriority 1) ++
        "[" ++ toString opts.maxP1 ++ "] ") ∧
    containsSeg (handleExit opts results).2
      ("P2=" ++ toString (results.numberOfViolationsWithPriority 2) ++
        "[" ++ toString opts.maxP2 ++ "] ") ∧
    containsSeg (handleExit opts results).2
      ("P3=" ++ toString (results.numberOfViolationsWithPriority 3) ++
        "[" ++ toString opts.maxP3 ++ "] ") := by
  rw [handleExit_snd_of_threshold opts results h]
  refine ⟨⟨printErrorLine "violations exceed threshold",
      ("P2=" ++ toString (results.numberOfViolationsWithPriority 2) ++
        "[" ++ toString opts.maxP2 ++ "] ") ++
      ("P3=" ++ toString (results.numberOfViolationsWithPriority 3) ++
        "[" ++ toString opts.maxP3 ++ "] " ++ "\n"), ?_⟩,
    ⟨printErrorLine "violations exceed threshold" ++
      ("P1=" ++ toString (results.numberOfViolationsWithPriority 1) ++
        "[" ++ toString opts.maxP1 ++ "] "),
      ("P3=" ++ toString (results.numberOfViolationsWithPriority 3) ++
        "[" ++ toString opts.maxP3 ++ "] " ++ "\n"), ?_⟩,
    ⟨printErrorLine "violations exceed threshold" ++
      ("P1=" ++ toString (results.numberOfViolationsWithPriority 1) ++
        "[" ++ toString opts.maxP1 ++ "] ") ++
      ("P2=" ++ toString (results.numberOfViolationsWithPriority 2) ++
        "[" ++ toString opts.maxP2 ++ "] "), "\n", ?_⟩⟩ <;>
  simp [printViolationsExceedThresholdError, String.append_assoc]

/-- Witness for C7 at a concrete breached gate: the diagnostic carries all
three priority segments. -/
theorem handleExit_reports_all_priorities_witness :
    (handleExit optsMax4 viewFive).1 = VIOLATIONS_EXCEED_THRESHOLD ∧
    containsSeg (handleExit optsMax4 viewFive).2
      ("P1=" ++ toString (viewFive.numberOfViolationsWithPriority 1) ++
        "[" ++ toString optsMax4.maxP1 ++ "] ") ∧
    containsSeg (handleExit optsMax4 viewFive).2
      ("P2=" ++ toString (viewFive.numberOfViolationsWithPriority 2) ++
        "[" ++ toString optsMax4.maxP2 ++ "] ") ∧
    containsSeg (handleExit optsMax4 viewFive).2
      ("P3=" ++ toString (viewFive.numberOfViolationsWithPriority 3) ++
        "[" ++ toString optsMax4.maxP3 ++ "] ") :=
  ⟨by decide, handleExit_reports_all_priorities optsMax4 viewFive (by decide)⟩

/-- Claim C8: with no output-path template configured, `outStream` returns
the shared standard output for every reporter on every filesystem, and
`disposeOutStream` closes nothing (it closes only when a template is
configured, in which case the stream is file-backed). -/
theorem outStream_stdout_no_close (opts : Options) (fs : FS) (r : Reporter) (t : OutTarget)
    (h : opts.hasOutputPath = false) :
    outStream opts fs r = Except.ok OutTarget.stdout ∧ disposeOutStream opts t = false := by
  simp [outStream, disposeOutStream, h]

/-- Witness for C8 at a concrete template-less configuration. -/
theorem outStream_stdout_no_close_witness :
    optsNoOut.hasOutputPath = false ∧
    outStream optsNoOut fsAll repText = Except.ok OutTarget.stdout ∧
    disposeOutStream optsNoOut OutTarget.stdout = false :=
  ⟨rfl, outStream_stdout_no_close optsNoOut fsAll repText OutTarget.stdout rfl⟩

/-- Claim C9: `getResults` builds the Raw view exactly when
`allowDuplicatedViolations` is set and the Unique view otherwise, so
exactly one of the two variants is constructed, and either variant is
backed by the same collector it was given. -/
theorem getResults_variant_selection (opts : Options) (c : ResultCollector) :
    (getResults opts c).isRaw = opts.allowDuplicatedViolations ∧
    (getResults opts c).isUnique = !opts.allowDuplicatedViolations ∧
    (getResults opts c).backing = c := by
  cases h : opts.allowDuplicatedViolations <;>
    simp [getResults, h, Results.isRaw, Results.isUnique, Results.backing]

/-- Claim C10: a rule-path load failure and the zero-rules-registered
condition make `prepare` return the same `RULE_NOT_FOUND` status, so the
two startup failures are indistinguishable at the process exit surface. -/
theorem prepare_failures_same_status (l1 : RulesLoader) (reg1 : List String) (o1 : Options)
    (l2 : RulesLoader) (reg2 : List String) (o2 : Options) (e : String)
    (h1 : consumeArgRulesPath l1 o1.rulesPath = some e)
    (h2 : consumeArgRulesPath l2 o2.rulesPath = none)
    (h3 : totalRulesRegistered l2 o2.rulesPath = 0) :
    prepare l1 reg1 o1 = RULE_NOT_FOUND ∧ prepare l2 reg2 o2 = RULE_NOT_FOUND ∧
    prepare l1 reg1 o1 = prepare l2 reg2 o2 := by
  have hA : prepare l1 reg1 o1 = RULE_NOT_FOUND := by
    unfold prepare; rw [h1]
  have hB : prepare l2 reg2 o2 = RULE_NOT_FOUND := prepare_zero_rules l2 reg2 o2 h2 h3
  exact ⟨hA, hB, hA.trans hB.symm⟩

/-- Witness for C10: a failing load over one path and a clean pass over no
paths both leave `prepare` at `RULE_NOT_FOUND`. -/
theorem prepare_failures_same_status_witness :
    consumeArgRulesPath loaderFailing optsOnePath.rulesPath = some "cannot open dynamic library" ∧
    consumeArgRulesPath loaderEmpty optsNoPath.rulesPath = none ∧
    totalRulesRegistered loaderEmpty optsNoPath.rulesPath = 0 ∧
    (prepare loaderFailing [] optsOnePath = RULE_NOT_FOUND ∧
      prepare loaderEmpty [] optsNoPath = RULE_NOT_FOUND ∧
      prepare loaderFailing [] optsOnePath = prepare loaderEmpty [] optsNoPath) :=
  ⟨rfl, rfl, rfl,
    prepare_failures_same_status loaderFailing [] optsOnePath loaderEmpty [] optsNoPath
      "cannot open dynamic library" rfl rfl rfl⟩
